import Mathlib

/-!
Verification of the research-ai-agent backend core: the pipeline
orchestrator (`Handler.Create`, `Handler.Get`, `Handler.Delete`,
`Handler.DownloadPDF`, `Handler.DownloadTex` in
`backend/internal/research/service.go`), the session middleware
(`RequireAuth` in `backend/internal/middleware/auth.go`), the session
store (`SessionStore` over Redis in `backend/internal/auth`) and the
auth handlers (`Handler.Login`).

Remote collaborators (AI service, LaTeX service) are modelled as an
environment of response functions; the stores (MongoDB result store,
MinIO artifact store, Redis credential store) are modelled as explicit
state threaded through each handler.  Go `error` results become
`Except String` / `Option`; each `log.Printf` call becomes an entry in
an explicit log trace.
-/

namespace ResearchAgent

/-- `models.Source`: a web source cited in the report. -/
structure Source where
  title : String
  body : String
  href : String
deriving DecidableEq

/-- `models.Document`: a research report record in the result store. -/
structure Document where
  id : String
  userID : String
  topic : String
  latexContent : String
  sources : List Source
  modelUsed : String
  searchQueries : List String
  pdfObjectKey : String
  texObjectKey : String
deriving DecidableEq

/-- `models.CreateRequest`: the decoded JSON body of POST /api/research. -/
structure CreateRequest where
  topic : String
  model : String
  depth : String
  apiKey : String
deriving DecidableEq

/-- Payload of an object uploaded to the artifact store: either raw
bytes (PDF) or the bytes of a string (tex source). -/
inductive BlobData where
  | bin (bytes : List Nat)
  | txt (s : String)
deriving DecidableEq

/-- One stored object in the MinIO artifact store: data plus the
content type it was uploaded with. -/
structure MinioObj where
  data : BlobData
  contentType : String
deriving DecidableEq

/-- State of the MinIO artifact store: key-addressed objects.  A later
upload under the same key overwrites (`List.lookup` finds the newest
entry first). -/
structure MinioState where
  objects : List (String × MinioObj)
deriving DecidableEq

/-- `MinioStore.Upload`: store bytes under the given object key. -/
def minioUpload (st : MinioState) (key : String) (data : BlobData) (contentType : String) : MinioState :=
  { objects := (key, ⟨data, contentType⟩) :: st.objects }

/-- `MinioStore.Remove` with failure injection (`removeFails key` models
the MinIO call returning an error): on failure the state is unchanged
and an error is reported; on success every entry under the key is gone. -/
def minioRemove (st : MinioState) (removeFails : String → Bool) (key : String) : MinioState × Option String :=
  if removeFails key then (st, some "remove failed")
  else ({ objects := st.objects.filter (fun p => p.1 != key) }, none)

/-- `MinioStore.Download`: retrieve the object bytes and content type. -/
def minioDownload (st : MinioState) (key : String) : Option MinioObj :=
  st.objects.lookup key

/-- State of the MongoDB result store: id-addressed documents. -/
structure MongoState where
  docs : List (String × Document)
deriving DecidableEq

/-- `MongoStore.Insert` after the driver assigned `docID`: the stored
record carries the assigned id. -/
def mongoInsert (st : MongoState) (docID : String) (doc : Document) : MongoState :=
  { docs := (docID, { doc with id := docID }) :: st.docs }

/-- `MongoStore.GetByID`: point lookup; `none` covers both an invalid
id and a missing record (both are errors in the Go code). -/
def mongoGetByID (st : MongoState) (id : String) : Option Document :=
  st.docs.lookup id

/-- `MongoStore.Delete`: remove the record with the given id. -/
def mongoDelete (st : MongoState) (id : String) : MongoState :=
  { docs := st.docs.filter (fun p => p.1 != id) }

/-- The `DepthConfig` map from `service.go`: depth names to
(query count, results per query). -/
def DepthConfig (d : String) : Option (Nat × Nat) :=
  if d = "Quick" then some (2, 3)
  else if d = "Standard" then some (4, 5)
  else if d = "Deep" then some (6, 7)
  else none

/-- Depth resolution in `Handler.Create`: an empty depth defaults to
"Standard"; an unrecognized depth falls back to `DepthConfig["Standard"]`. -/
def depthParams (depth : String) : Nat × Nat :=
  let name := if depth = "" then "Standard" else depth
  match DepthConfig name with
  | some p => p
  | none => (DepthConfig "Standard").getD (0, 0)

/-- Model defaulting in `Handler.Create`: empty model becomes the
canonical model name. -/
def effectiveModel (m : String) : String :=
  if m = "" then "mistral-medium-latest" else m

/-- Context assembly in `Handler.Create`: one line per source —
`- title: body (Source: href)`. -/
def buildContext : List Source → String
  | [] => ""
  | s :: rest =>
      "- " ++ s.title ++ ": " ++ s.body ++ " (Source: " ++ s.href ++ ")\n" ++ buildContext rest

/-- Truncation in `Handler.Create`: keep at most `maxQ` queries,
taking the first entries in returned order. -/
def truncQueries (maxQ : Nat) (qs : List String) : List String :=
  if qs.length > maxQ then qs.take maxQ else qs

/-- Topic slug for artifact keys: the topic truncated to 20 characters. -/
def topicSlug (topic : String) : String :=
  if topic.length > 20 then topic.take 20 else topic

/-- Environment of remote collaborators and store outcomes for one run
of `Handler.Create`.  Each field is the response function of the
corresponding remote call; `uploadOk` and `insertRes` model the
fallibility of the MinIO upload and the Mongo insert. -/
structure Env where
  genQueries : String → String → String → Except String (List String)
  search : List String → Nat → Except String (List Source)
  genReport : String → String → String → String → List Source → Except String String
  compilePDF : String → String → Except String (List Nat)
  compileTex : String → String → Except String String
  uploadOk : String → BlobData → String → Bool
  insertRes : Document → Except String String

/-- Result of one `Handler.Create` call: HTTP status, the response
document (the 201 body re-fetched by id, error ignored), the error
message otherwise, the final store states and the log trace. -/
structure CreateResult where
  status : Nat
  respDoc : Option Document
  errMsg : Option String
  mongo : MongoState
  minio : MinioState
  logs : List String
deriving DecidableEq

/-- Step 4 of `Handler.Create`: compile the PDF; a failure is
non-fatal, leaves no bytes (`pdfBytes == nil`) and is logged. -/
def pdfStageOf (env : Env) (latexBody title : String) : Option (List Nat) × List String :=
  match env.compilePDF latexBody title with
  | .ok b => (some b, [])
  | .error e => (none, ["compile-pdf error (non-fatal): " ++ e])

/-- Step 5 of `Handler.Create`: compile the .tex source; a failure is
non-fatal, leaves the empty string and is logged. -/
def texStageOf (env : Env) (latexBody title : String) : String × List String :=
  match env.compileTex latexBody title with
  | .ok s => (s, [])
  | .error e => ("", ["compile-tex error (non-fatal): " ++ e])

/-- PDF half of step 6 of `Handler.Create`: when bytes exist, upload
them under `pdfKey0`; an upload failure is logged and clears the key. -/
def pdfUploadStep (env : Env) (pdfKey0 : String) (pdfBytes : Option (List Nat))
    (minio : MinioState) : String × MinioState × List String :=
  match pdfBytes with
  | some b =>
      if env.uploadOk pdfKey0 (.bin b) "application/pdf" then
        (pdfKey0, minioUpload minio pdfKey0 (.bin b) "application/pdf", [])
      else ("", minio, ["minio pdf upload error"])
  | none => ("", minio, [])

/-- Tex half of step 6 of `Handler.Create`: when the source is
non-empty, upload it under `texKey0`; an upload failure is logged and
clears the key. -/
def texUploadStep (env : Env) (texKey0 : String) (texSource : String)
    (minio : MinioState) : String × MinioState × List String :=
  if texSource ≠ "" then
    if env.uploadOk texKey0 (.txt texSource) "application/x-tex" then
      (texKey0, minioUpload minio texKey0 (.txt texSource) "application/x-tex", [])
    else ("", minio, ["minio tex upload error"])
  else ("", minio, [])

/-- The PDF artifact key of `Handler.Create`:
`{userID}/{topicSlug}.pdf`. -/
def pdfKeyOf (userID topic : String) : String :=
  userID ++ "/" ++ topicSlug topic ++ ".pdf"

/-- The tex artifact key of `Handler.Create`:
`{userID}/{topicSlug}.tex`. -/
def texKeyOf (userID topic : String) : String :=
  userID ++ "/" ++ topicSlug topic ++ ".tex"

/-- Steps 4–9 of `Handler.Create`: PDF compile, tex compile (both
non-fatal), artifact upload (non-fatal, clears the key on failure),
Mongo insert (fatal), re-fetch and 201. -/
def createAfterDraft (env : Env) (userID : String) (req : CreateRequest) (model : String)
    (queries : List String) (sources : List Source) (latexBody : String)
    (mongo : MongoState) (minio : MinioState) : CreateResult :=
  let pdfStage := pdfStageOf env latexBody req.topic
  let texStage := texStageOf env latexBody req.topic
  let pdfUp := pdfUploadStep env (pdfKeyOf userID req.topic) pdfStage.1 minio
  let texUp := texUploadStep env (texKeyOf userID req.topic) texStage.1 pdfUp.2.1
  let doc : Document :=
    { id := "", userID := userID, topic := req.topic, latexContent := latexBody,
      sources := sources, modelUsed := model, searchQueries := queries,
      pdfObjectKey := pdfUp.1, texObjectKey := texUp.1 }
  let logs := pdfStage.2 ++ texStage.2 ++ pdfUp.2.2 ++ texUp.2.2
  match env.insertRes doc with
  | .error e =>
      { status := 500, respDoc := none, errMsg := some "failed to save research",
        mongo := mongo, minio := texUp.2.1, logs := logs ++ ["mongo insert error: " ++ e] }
  | .ok docID =>
      let mongo' := mongoInsert mongo docID doc
      { status := 201, respDoc := mongoGetByID mongo' docID, errMsg := none,
        mongo := mongo', minio := texUp.2.1, logs := logs }

/-- `Handler.Create`: validation, depth resolution, then the staged
pipeline — query planning (fatal), truncation, search (fatal), context
assembly, drafting (fatal, empty body fatal), then `createAfterDraft`. -/
def create (env : Env) (userID : String) (req : CreateRequest)
    (mongo : MongoState) (minio : MinioState) : CreateResult :=
  if req.topic = "" ∨ req.apiKey = "" then
    { status := 400, respDoc := none, errMsg := some "topic and api_key are required",
      mongo := mongo, minio := minio, logs := [] }
  else
    let model := effectiveModel req.model
    let depth := depthParams req.depth
    match env.genQueries req.apiKey model req.topic with
    | .error e =>
        { status := 502, respDoc := none,
          errMsg := some ("Failed to generate search queries: " ++ e),
          mongo := mongo, minio := minio, logs := ["generate-queries error: " ++ e] }
    | .ok qs =>
      let queries := truncQueries depth.1 qs
      match env.search queries depth.2 with
      | .error e =>
          { status := 502, respDoc := none, errMsg := some ("Web search failed: " ++ e),
            mongo := mongo, minio := minio, logs := ["search error: " ++ e] }
      | .ok sources =>
        match env.genReport req.apiKey model req.topic (buildContext sources) sources with
        | .error e =>
            { status := 502, respDoc := none,
              errMsg := some ("Report generation failed: " ++ e),
              mongo := mongo, minio := minio, logs := ["generate-report error: " ++ e] }
        | .ok latexBody =>
          if latexBody = "" then
            { status := 502, respDoc := none,
              errMsg := some "AI service returned an empty report. Try again or use a different model.",
              mongo := mongo, minio := minio, logs := ["generate-report returned empty body"] }
          else
            createAfterDraft env userID req model queries sources latexBody mongo minio

/-! ### Credential store (Redis-backed `SessionStore`) and middleware -/

/-- Redis state: a key-value map with an absolute expiry time per entry
(times in nanoseconds, matching Go `time.Duration`). -/
def RedisState := String → Option (String × Nat)

/-- The empty Redis state. -/
def emptyRedis : RedisState := fun _ => none

/-- Redis `SET key val EX ttl` at time `now`: store the value with
absolute expiry `now + ttl`, overwriting any previous entry. -/
def redisSet (st : RedisState) (key val : String) (now ttl : Nat) : RedisState :=
  fun k => if k = key then some (val, now + ttl) else st k

/-- Redis `GET key` at time `now`: the stored value if present and not
yet expired, otherwise `none` (Redis `Nil`); a pure read. -/
def redisGet (st : RedisState) (key : String) (now : Nat) : Option String :=
  match st key with
  | some (v, exp) => if now < exp then some v else none
  | none => none

/-- Redis `DEL key`: remove the entry. -/
def redisDel (st : RedisState) (key : String) : RedisState :=
  fun k => if k = key then none else st k

/-- `SessionTTL = 24 * time.Hour` in nanoseconds. -/
def SessionTTL : Nat := 24 * 60 * 60 * 1000000000

/-- `SessionStore.Create`: store `session:<sid> -> userID` with the
fixed TTL (`sid` is the freshly generated UUID, supplied here as an
argument); returns the new state and the session id. -/
def sessionCreate (st : RedisState) (now : Nat) (sid userID : String) : RedisState × String :=
  (redisSet st ("session:" ++ sid) userID now SessionTTL, sid)

/-- `SessionStore.Get` without infrastructure faults: returns the
userID, or `""` when the key is absent or expired (`redis.Nil` maps to
`("", nil)`); also returns the store state, which a `GET` never
changes. -/
def sessionGet (st : RedisState) (now : Nat) (sid : String) : RedisState × String :=
  match redisGet st ("session:" ++ sid) now with
  | some v => (st, v)
  | none => (st, "")

/-- `SessionStore.Delete`: remove the session entry. -/
def sessionDelete (st : RedisState) (sid : String) : RedisState :=
  redisDel st ("session:" ++ sid)

/-- `SessionStore.Get` with infrastructure-fault injection: when the
underlying store is unavailable (`fault = some e`) the Go method
returns `("", err)`; when reachable, `redis.Nil` maps to `("", nil)`
and a hit to `(val, nil)`. -/
def sessionStoreGet (st : RedisState) (fault : Option String) (now : Nat) (sid : String) :
    String × Option String :=
  match fault with
  | some e => ("", some e)
  | none =>
    match redisGet st ("session:" ++ sid) now with
    | some v => (v, none)
    | none => ("", none)

/-- Outcome of the `RequireAuth` middleware for one request: reject
with a status and message, or inject the resolved subject into the
request scope and continue. -/
inductive AuthOutcome where
  | reject (status : Nat) (msg : String)
  | proceed (userID : String)
deriving DecidableEq

/-- `middleware.RequireAuth`: no cookie rejects 401; a store error or
an empty resolved userID rejects 401; otherwise the userID is injected
and the request continues. -/
def requireAuth (st : RedisState) (fault : Option String) (now : Nat)
    (cookie : Option String) : AuthOutcome :=
  match cookie with
  | none => .reject 401 "not authenticated"
  | some sid =>
    let r := sessionStoreGet st fault now sid
    if r.2.isSome ∨ r.1 = "" then .reject 401 "session expired"
    else .proceed r.1

/-- One credential-store operation, as issued by the auth layer:
`create` at login, `resolve` on a protected request, `revoke` at
logout. -/
inductive SessionOp where
  | create (now : Nat) (sid userID : String)
  | resolve (now : Nat) (sid : String)
  | revoke (sid : String)
deriving DecidableEq

/-- Whether an operation writes to the given session id's entry. -/
def opTouches (sid : String) : SessionOp → Bool
  | .create _ s _ => s = sid
  | .resolve _ _ => false
  | .revoke s => s = sid

/-- Apply one session operation to the store state. -/
def applySessionOp (st : RedisState) : SessionOp → RedisState
  | .create now sid userID => (sessionCreate st now sid userID).1
  | .resolve now sid => (sessionGet st now sid).1
  | .revoke sid => sessionDelete st sid

/-- Apply a sequence of session operations in order. -/
def applySessionOps (st : RedisState) : List SessionOp → RedisState
  | [] => st
  | op :: ops => applySessionOps (applySessionOp st op) ops

/-! ### Auth handlers (`Handler.Login`) -/

/-- A user row from the PostgreSQL identity store (`models.User`);
`password` holds the bcrypt hash. -/
structure UserRec where
  id : String
  username : String
  email : String
  password : String
deriving DecidableEq

/-- `PostgresStore.GetUserByEmail`: point lookup by email; `none`
covers "no such row". -/
def getUserByEmail (users : List UserRec) (email : String) : Option UserRec :=
  users.find? (fun u => u.email == email)

/-- The session cookie as set by `Handler.Login` / `Handler.Logout`. -/
structure CookieSpec where
  name : String
  value : String
  path : String
  httpOnly : Bool
  sameSiteLax : Bool
  maxAge : Int
deriving DecidableEq

/-- The decoded JSON body of POST /api/auth/login. -/
structure LoginRequest where
  email : String
  password : String
deriving DecidableEq

/-- Result of one `Handler.Login` call: status, error message (if
any), the credential-store state after the call, the cookie set (if
any) and the user echoed in the 200 body (if any). -/
structure LoginResult where
  status : Nat
  errMsg : Option String
  sessions : RedisState
  cookie : Option CookieSpec
  respUser : Option UserRec

/-- `Handler.Login`: fetch by email, compare the bcrypt hash
(`bcryptVerify hash password`), on any mismatch answer a uniform 401
"invalid credentials"; on success create a session (fresh UUID
`newSid`; `createFails` injects a Redis write failure) and set the
session cookie. -/
def login (users : List UserRec) (bcryptVerify : String → String → Bool)
    (sessions : RedisState) (newSid : String) (createFails : Bool) (now : Nat)
    (req : LoginRequest) : LoginResult :=
  match getUserByEmail users req.email with
  | none => ⟨401, some "invalid credentials", sessions, none, none⟩
  | some user =>
    if ¬ bcryptVerify user.password req.password then
      ⟨401, some "invalid credentials", sessions, none, none⟩
    else if createFails then
      ⟨500, some "session creation failed", sessions, none, none⟩
    else
      let r := sessionCreate sessions now newSid user.id
      ⟨200, none, r.1,
        some ⟨"session_id", r.2, "/", true, true, (SessionTTL : Int) / 1000000000⟩,
        some user⟩

/-! ### Per-document protected handlers -/

/-- Result of `Handler.Get`: 200 with the document, or 404. -/
def handlerGet (_sessionUserID : String) (mongo : MongoState) (id : String) :
    Nat × Option Document :=
  match mongoGetByID mongo id with
  | none => (404, none)
  | some doc => (200, some doc)

/-- Result of one `Handler.Delete` call. -/
structure DeleteResult where
  status : Nat
  mongo : MongoState
  minio : MinioState
  logs : List String
deriving DecidableEq

/-- `Handler.Delete`: look up the record (404 if absent); best-effort
MinIO removal for each non-empty artifact key, with the returned error
discarded (nothing is logged); then delete the record (500 on store
failure, injected via `deleteFails`). -/
def handlerDelete (_sessionUserID : String) (mongo : MongoState) (minio : MinioState)
    (removeFails : String → Bool) (deleteFails : Bool) (id : String) : DeleteResult :=
  match mongoGetByID mongo id with
  | none => ⟨404, mongo, minio, []⟩
  | some doc =>
    let minio1 :=
      if doc.pdfObjectKey ≠ "" then (minioRemove minio removeFails doc.pdfObjectKey).1
      else minio
    let minio2 :=
      if doc.texObjectKey ≠ "" then (minioRemove minio1 removeFails doc.texObjectKey).1
      else minio1
    if deleteFails then ⟨500, mongo, minio2, []⟩
    else ⟨200, mongoDelete mongo id, minio2, []⟩

/-- `Handler.DownloadPDF`: 404 when the record is absent or its PDF
key is empty; 500 when the MinIO download fails; otherwise 200 with
the stored content type and bytes. -/
def handlerDownloadPDF (_sessionUserID : String) (mongo : MongoState) (minio : MinioState)
    (id : String) : Nat × Option (String × BlobData) :=
  match mongoGetByID mongo id with
  | none => (404, none)
  | some doc =>
    if doc.pdfObjectKey = "" then (404, none)
    else
      match minioDownload minio doc.pdfObjectKey with
      | none => (500, none)
      | some obj => (200, some (obj.contentType, obj.data))

/-- `Handler.DownloadTex`: like `DownloadPDF` but for the tex key, and
the response content type is the fixed "application/x-tex". -/
def handlerDownloadTex (_sessionUserID : String) (mongo : MongoState) (minio : MinioState)
    (id : String) : Nat × Option (String × BlobData) :=
  match mongoGetByID mongo id with
  | none => (404, none)
  | some doc =>
    if doc.texObjectKey = "" then (404, none)
    else
      match minioDownload minio doc.texObjectKey with
      | none => (500, none)
      | some obj => (200, some ("application/x-tex", obj.data))

/-! ### Helper lemmas -/

/-- Left cancellation of `String.append`, used to separate distinct
session keys and artifact keys. -/
theorem string_append_left_cancel {s a b : String} (h : s ++ a = s ++ b) : a = b := by
  have hd := congrArg String.data h
  simp [String.data_append] at hd
  exact String.ext hd

theorem lookup_cons_self {α β : Type} [BEq α] [LawfulBEq α] (k : α) (v : β)
    (l : List (α × β)) : ((k, v) :: l).lookup k = some v := by
  simp [List.lookup]

theorem lookup_isSome_cons {α β : Type} [BEq α] (k a : α) (b : β) (l : List (α × β))
    (h : (l.lookup k).isSome) : (((a, b) :: l).lookup k).isSome := by
  rw [List.lookup]
  cases hk : k == a <;> simp [h]

theorem lookup_filter_self {α β : Type} [BEq α] [LawfulBEq α] (k : α) (l : List (α × β)) :
    (l.filter (fun p => p.1 != k)).lookup k = none := by
  induction l with
  | nil => rfl
  | cons p rest ih =>
    by_cases hp : p.1 = k
    · simp [List.filter, hp, ih]
    · have hne : (p.1 != k) = true := by simp [hp]
      rw [List.filter_cons, if_pos hne, List.lookup]
      have : (k == p.1) = false := by simp [Ne.symm hp]
      simp [this, ih]

theorem lookup_none_filter {α β : Type} [BEq α] (k : α) (p : α × β → Bool)
    (l : List (α × β)) (h : l.lookup k = none) : (l.filter p).lookup k = none := by
  induction l with
  | nil => rfl
  | cons a rest ih =>
    rw [List.lookup] at h
    cases hk : k == a.1 with
    | true => simp [hk] at h
    | false =>
      rw [hk] at h
      rw [List.filter_cons]
      by_cases hp : p a = true
      · rw [if_pos hp, List.lookup, hk]
        exact ih h
      · rw [if_neg hp]
        exact ih h

/-! ### C7 — depth resolution and silent fallback -/

theorem depthParams_eq_standard (d : String) (h1 : d ≠ "Quick") (h2 : d ≠ "Standard")
    (h3 : d ≠ "Deep") : depthParams d = depthParams "Standard" := by
  by_cases h0 : d = ""
  · subst h0; rfl
  · simp [depthParams, DepthConfig, h0, h1, h2, h3]

theorem create_congr_depth (env : Env) (userID : String) (t m k d1 d2 : String)
    (mongo : MongoState) (minio : MinioState) (h : depthParams d1 = depthParams d2) :
    create env userID ⟨t, m, d1, k⟩ mongo minio = create env userID ⟨t, m, d2, k⟩ mongo minio := by
  unfold create createAfterDraft
  simp only [h]

/-- C7: every depth value outside Quick/Standard/Deep (the empty
string included) makes the pipeline behave identically to
depth="Standard", whose parameter pair is (4, 5); the recognized
values map to Quick=(2,3), Standard=(4,5), Deep=(6,7). -/
theorem depth_fallback_standard (env : Env) (userID : String) (req : CreateRequest)
    (mongo : MongoState) (minio : MinioState) (d : String)
    (h1 : d ≠ "Quick") (h2 : d ≠ "Standard") (h3 : d ≠ "Deep") :
    create env userID { req with depth := d } mongo minio =
      create env userID { req with depth := "Standard" } mongo minio ∧
    depthParams "Quick" = (2, 3) ∧ depthParams "Standard" = (4, 5) ∧
    depthParams "Deep" = (6, 7) := by
  obtain ⟨t, m, dep, k⟩ := req
  exact ⟨create_congr_depth env userID t m k d "Standard" mongo minio
    (depthParams_eq_standard d h1 h2 h3), rfl, rfl, rfl⟩

/-! ### C5 — per-document handlers ignore the session subject -/

/-- C5: for the per-document protected endpoints (get, delete,
download-pdf, download-tex), the outcome depends only on the document
id and the store states, never on which authenticated subject issues
the request: two requests for the same id under two different valid
sessions produce identical results. -/
theorem handlers_ignore_subject (u1 u2 : String) (mongo : MongoState) (minio : MinioState)
    (removeFails : String → Bool) (deleteFails : Bool) (id : String) :
    handlerGet u1 mongo id = handlerGet u2 mongo id ∧
    handlerDelete u1 mongo minio removeFails deleteFails id =
      handlerDelete u2 mongo minio removeFails deleteFails id ∧
    handlerDownloadPDF u1 mongo minio id = handlerDownloadPDF u2 mongo minio id ∧
    handlerDownloadTex u1 mongo minio id = handlerDownloadTex u2 mongo minio id :=
  ⟨rfl, rfl, rfl, rfl⟩

/-- A concrete all-successful collaborator environment, used to
evaluate the theorems at concrete inputs. -/
def envW : Env where
  genQueries := fun _ _ _ => .ok ["q1", "q2", "q3", "q4", "q5"]
  search := fun _ _ => .ok [⟨"T1", "B1", "H1"⟩, ⟨"T2", "B2", "H2"⟩]
  genReport := fun _ _ _ _ _ => .ok "BODY"
  compilePDF := fun _ _ => .ok [37, 80]
  compileTex := fun _ _ => .ok "TEXSRC"
  uploadOk := fun _ _ _ => true
  insertRes := fun _ => .ok "doc1"

theorem depth_fallback_standard_witness :
    create envW "u1" ⟨"topic", "", "Bogus", "key"⟩ ⟨[]⟩ ⟨[]⟩ =
      create envW "u1" ⟨"topic", "", "Standard", "key"⟩ ⟨[]⟩ ⟨[]⟩ ∧
    depthParams "Quick" = (2, 3) ∧ depthParams "Standard" = (4, 5) ∧
    depthParams "Deep" = (6, 7) :=
  depth_fallback_standard envW "u1" ⟨"topic", "", "Bogus", "key"⟩ ⟨[]⟩ ⟨[]⟩ "Bogus"
    (by decide) (by decide) (by decide)

/-! ### C4 — session middleware state machine -/

theorem sessionGet_fst (st : RedisState) (now : Nat) (sid : String) :
    (sessionGet st now sid).1 = st := by
  unfold sessionGet
  cases redisGet st ("session:" ++ sid) now <;> rfl

/-- C4: the middleware's per-request state machine — no cookie rejects
with 401; a cookie resolving to absent rejects with 401; a store fault
is treated as not-authenticated (401) rather than a crash, while the
store reports the fault (an error value) distinctly from "credential
absent" (no error); a resolved non-empty subject is injected and the
request continues. -/
theorem requireAuth_state_machine :
    (∀ st fault now, requireAuth st fault now none = .reject 401 "not authenticated") ∧
    (∀ st now sid, redisGet st ("session:" ++ sid) now = none →
      requireAuth st none now (some sid) = .reject 401 "session expired") ∧
    (∀ st e now sid,
      requireAuth st (some e) now (some sid) = .reject 401 "session expired" ∧
      (sessionStoreGet st (some e) now sid).2 = some e ∧
      (redisGet st ("session:" ++ sid) now = none →
        (sessionStoreGet st none now sid).2 = none)) ∧
    (∀ st now sid v, redisGet st ("session:" ++ sid) now = some v → v ≠ "" →
      requireAuth st none now (some sid) = .proceed v) := by
  refine ⟨fun _ _ _ => rfl, ?_, ?_, ?_⟩
  · intro st now sid h
    simp [requireAuth, sessionStoreGet, h]
  · intro st e now sid
    refine ⟨rfl, rfl, fun h => ?_⟩
    simp [sessionStoreGet, h]
  · intro st now sid v h hv
    simp [requireAuth, sessionStoreGet, h, hv]

/-- Concrete session store with one live session, for witnesses. -/
def rsW : RedisState := (sessionCreate emptyRedis 0 "abc" "u1").1

theorem requireAuth_state_machine_witness :
    requireAuth rsW none 5 (some "abc") = .proceed "u1" :=
  requireAuth_state_machine.2.2.2 rsW 5 "abc" "u1" (by decide) (by decide)

/-! ### C9 — uniform login rejection, no credential created -/

/-- C9: every failed login — unknown email, or known email with a
failing hash comparison — answers 401 with the identical "invalid
credentials" message and leaves the credential store unchanged (no
session created, no cookie set). -/
theorem login_uniform_rejection (users : List UserRec) (bv : String → String → Bool)
    (sessions : RedisState) (newSid : String) (createFails : Bool) (now : Nat)
    (req : LoginRequest)
    (h : getUserByEmail users req.email = none ∨
         ∃ u, getUserByEmail users req.email = some u ∧ bv u.password req.password = false) :
    (login users bv sessions newSid createFails now req).status = 401 ∧
    (login users bv sessions newSid createFails now req).errMsg = some "invalid credentials" ∧
    (login users bv sessions newSid createFails now req).sessions = sessions ∧
    (login users bv sessions newSid createFails now req).cookie = none := by
  rcases h with h | ⟨u, hu, hb⟩
  · simp [login, h]
  · simp [login, hu, hb]

/-- Concrete identity store with one user, for witnesses. -/
def usersW : List UserRec := [⟨"id1", "alice", "alice@example.com", "hashpw"⟩]

theorem login_uniform_rejection_witness :
    (login usersW (fun hs p => hs == p) emptyRedis "sid1" false 0
        ⟨"alice@example.com", "wrong"⟩).status = 401 ∧
    (login usersW (fun hs p => hs == p) emptyRedis "sid1" false 0
        ⟨"alice@example.com", "wrong"⟩).errMsg = some "invalid credentials" ∧
    (login usersW (fun hs p => hs == p) emptyRedis "sid1" false 0
        ⟨"alice@example.com", "wrong"⟩).sessions = emptyRedis ∧
    (login usersW (fun hs p => hs == p) emptyRedis "sid1" false 0
        ⟨"alice@example.com", "wrong"⟩).cookie = none :=
  login_uniform_rejection usersW (fun hs p => hs == p) emptyRedis "sid1" false 0
    ⟨"alice@example.com", "wrong"⟩
    (Or.inr ⟨⟨"id1", "alice", "alice@example.com", "hashpw"⟩, by decide, by decide⟩)

/-! ### C6 — credential lifecycle: stable resolution, no TTL refresh -/

theorem applySessionOp_untouched (sid : String) (op : SessionOp) (st : RedisState)
    (h : opTouches sid op = false) :
    applySessionOp st op ("session:" ++ sid) = st ("session:" ++ sid) := by
  cases op with
  | create now sid' uid' =>
    simp [opTouches] at h
    have hne : ¬("session:" ++ sid = "session:" ++ sid') :=
      fun hk => h ((string_append_left_cancel hk).symm)
    simp [applySessionOp, sessionCreate, redisSet, hne]
  | resolve now sid' =>
    simp [applySessionOp, sessionGet_fst]
  | revoke sid' =>
    simp [opTouches] at h
    have hne : ¬("session:" ++ sid = "session:" ++ sid') :=
      fun hk => h ((string_append_left_cancel hk).symm)
    simp [applySessionOp, sessionDelete, redisDel, hne]

theorem applySessionOps_untouched (sid : String) (ops : List SessionOp) :
    ∀ st : RedisState, (∀ op ∈ ops, opTouches sid op = false) →
    applySessionOps st ops ("session:" ++ sid) = st ("session:" ++ sid) := by
  induction ops with
  | nil => intro st _; rfl
  | cons op ops ih =>
    intro st h
    rw [applySessionOps, ih _ (fun op' h' => h op' (List.mem_cons_of_mem _ h'))]
    exact applySessionOp_untouched sid op st (h op (List.mem_cons_self _ _))

/-- C6: a credential issued at login keeps resolving to the same
subject under any interleaving of store operations that neither
revokes it nor re-creates its id, for the whole fixed 24h window from
issuance; and resolution is read-only — a `Get` leaves the store
state, expiry times included, unchanged (no TTL refresh on access). -/
theorem credential_lifecycle (st0 : RedisState) (now : Nat) (sid uid : String)
    (ops : List SessionOp) (now' : Nat)
    (hops : ∀ op ∈ ops, opTouches sid op = false)
    (httl : now' < now + SessionTTL) :
    (sessionGet (applySessionOps (sessionCreate st0 now sid uid).1 ops) now' sid).2 = uid ∧
    (∀ st t s, (sessionGet st t s).1 = st) := by
  refine ⟨?_, fun st t s => sessionGet_fst st t s⟩
  have hkey := applySessionOps_untouched sid ops (sessionCreate st0 now sid uid).1 hops
  have hbase : (sessionCreate st0 now sid uid).1 ("session:" ++ sid) =
      some (uid, now + SessionTTL) := by
    simp [sessionCreate, redisSet]
  rw [hbase] at hkey
  simp [sessionGet, redisGet, hkey, httl]

theorem credential_lifecycle_witness :
    (sessionGet (applySessionOps (sessionCreate emptyRedis 0 "s1" "u1").1
        [.create 10 "s2" "u2", .resolve 20 "s1", .revoke "s2"]) 1000 "s1").2 = "u1" ∧
    (∀ st t s, (sessionGet st t s).1 = st) :=
  credential_lifecycle emptyRedis 0 "s1" "u1"
    [.create 10 "s2" "u2", .resolve 20 "s1", .revoke "s2"] 1000 (by decide) (by decide)

/-! ### C2 — fatal upstream failures: 502, zero persistence -/

/-- C2: when query planning fails, web search fails, or drafting fails
or returns an explicitly empty body, the run answers 502 and persists
nothing: the result store and the artifact store are exactly as before
the call. -/
theorem create_fatal_zero_persistence (env : Env) (userID : String) (req : CreateRequest)
    (mongo : MongoState) (minio : MinioState)
    (ht : req.topic ≠ "") (hk : req.apiKey ≠ "")
    (h : (∃ e, env.genQueries req.apiKey (effectiveModel req.model) req.topic = .error e) ∨
         (∃ qs e, env.genQueries req.apiKey (effectiveModel req.model) req.topic = .ok qs ∧
            env.search (truncQueries (depthParams req.depth).1 qs)
              (depthParams req.depth).2 = .error e) ∨
         (∃ qs sources, env.genQueries req.apiKey (effectiveModel req.model) req.topic = .ok qs ∧
            env.search (truncQueries (depthParams req.depth).1 qs)
              (depthParams req.depth).2 = .ok sources ∧
            ((∃ e, env.genReport req.apiKey (effectiveModel req.model) req.topic
                (buildContext sources) sources = .error e) ∨
             env.genReport req.apiKey (effectiveModel req.model) req.topic
                (buildContext sources) sources = .ok ""))) :
    (create env userID req mongo minio).status = 502 ∧
    (create env userID req mongo minio).mongo = mongo ∧
    (create env userID req mongo minio).minio = minio := by
  rcases h with ⟨e, hq⟩ | ⟨qs, e, hq, hs⟩ | ⟨qs, sources, hq, hs, ⟨e, hr⟩ | hr⟩
  · simp [create, ht, hk, hq]
  · simp [create, ht, hk, hq, hs]
  · simp [create, ht, hk, hq, hs, hr]
  · simp [create, ht, hk, hq, hs, hr]

theorem create_fatal_zero_persistence_witness :
    (create { envW with genQueries := fun _ _ _ => .error "boom" } "u1"
        ⟨"topic", "", "Quick", "key"⟩ ⟨[]⟩ ⟨[]⟩).status = 502 ∧
    (create { envW with genQueries := fun _ _ _ => .error "boom" } "u1"
        ⟨"topic", "", "Quick", "key"⟩ ⟨[]⟩ ⟨[]⟩).mongo = ⟨[]⟩ ∧
    (create { envW with genQueries := fun _ _ _ => .error "boom" } "u1"
        ⟨"topic", "", "Quick", "key"⟩ ⟨[]⟩ ⟨[]⟩).minio = ⟨[]⟩ :=
  create_fatal_zero_persistence { envW with genQueries := fun _ _ _ => .error "boom" }
    "u1" ⟨"topic", "", "Quick", "key"⟩ ⟨[]⟩ ⟨[]⟩ (by decide) (by decide)
    (Or.inl ⟨"boom", rfl⟩)

/-! ### Helper lemmas on the successful pipeline tail -/

theorem create_reaches_draft (env : Env) (userID : String) (req : CreateRequest)
    (mongo : MongoState) (minio : MinioState) (qs : List String) (sources : List Source)
    (body : String)
    (ht : req.topic ≠ "") (hk : req.apiKey ≠ "")
    (hq : env.genQueries req.apiKey (effectiveModel req.model) req.topic = .ok qs)
    (hs : env.search (truncQueries (depthParams req.depth).1 qs)
      (depthParams req.depth).2 = .ok sources)
    (hr : env.genReport req.apiKey (effectiveModel req.model) req.topic
      (buildContext sources) sources = .ok body)
    (hb : body ≠ "") :
    create env userID req mongo minio =
      createAfterDraft env userID req (effectiveModel req.model)
        (truncQueries (depthParams req.depth).1 qs) sources body mongo minio := by
  simp [create, ht, hk, hq, hs, hr, hb]

theorem pdfStageOf_error (env : Env) (body title e : String)
    (h : env.compilePDF body title = .error e) : (pdfStageOf env body title).1 = none := by
  simp [pdfStageOf, h]

theorem pdfUploadStep_key (env : Env) (k : String) (ob : Option (List Nat)) (m : MinioState) :
    (pdfUploadStep env k ob m).1 = "" ∨
    ((pdfUploadStep env k ob m).1 = k ∧
      k ∈ ((pdfUploadStep env k ob m).2.1.objects.map Prod.fst)) := by
  unfold pdfUploadStep minioUpload
  repeat' split <;> simp_all

theorem texUploadStep_key (env : Env) (k s : String) (m : MinioState) :
    (texUploadStep env k s m).1 = "" ∨
    ((texUploadStep env k s m).1 = k ∧
      k ∈ ((texUploadStep env k s m).2.1.objects.map Prod.fst)) := by
  unfold texUploadStep minioUpload
  repeat' split <;> simp_all

theorem texUploadStep_preserves (env : Env) (k s : String) (m : MinioState) (x : String)
    (hx : x ∈ m.objects.map Prod.fst) :
    x ∈ ((texUploadStep env k s m).2.1.objects.map Prod.fst) := by
  unfold texUploadStep minioUpload
  by_cases h1 : s = ""
  · simpa [h1] using hx
  · by_cases h2 : env.uploadOk k (.txt s) "application/x-tex" = true
    · simp only [h1, h2, ne_eq, not_false_iff, if_true, List.mem_map] at hx ⊢
      obtain ⟨y, hy, hxy⟩ := hx
      exact ⟨y, List.mem_cons_of_mem _ hy, hxy⟩
    · simpa [h1, h2] using hx

theorem createAfterDraft_insert_ok (env : Env) (userID : String) (req : CreateRequest)
    (model : String) (queries : List String) (sources : List Source) (body : String)
    (mongo : MongoState) (minio : MinioState) (docID : String)
    (hins : ∀ dd, env.insertRes dd = .ok docID) :
    (createAfterDraft env userID req model queries sources body mongo minio).status = 201 ∧
    (createAfterDraft env userID req model queries sources body mongo minio).respDoc =
      some ⟨docID, userID, req.topic, body, sources, model, queries,
        (pdfUploadStep env (pdfKeyOf userID req.topic) (pdfStageOf env body req.topic).1 minio).1,
        (texUploadStep env (texKeyOf userID req.topic) (texStageOf env body req.topic).1
          (pdfUploadStep env (pdfKeyOf userID req.topic) (pdfStageOf env body req.topic).1
            minio).2.1).1⟩ ∧
    mongoGetByID (createAfterDraft env userID req model queries sources body mongo minio).mongo
      docID =
      some ⟨docID, userID, req.topic, body, sources, model, queries,
        (pdfUploadStep env (pdfKeyOf userID req.topic) (pdfStageOf env body req.topic).1 minio).1,
        (texUploadStep env (texKeyOf userID req.topic) (texStageOf env body req.topic).1
          (pdfUploadStep env (pdfKeyOf userID req.topic) (pdfStageOf env body req.topic).1
            minio).2.1).1⟩ := by
  unfold createAfterDraft
  simp only [hins]
  refine ⟨trivial, ?_, ?_⟩ <;>
    simp [mongoInsert, mongoGetByID, lookup_cons_self]

theorem createAfterDraft_no_dangling (env : Env) (userID : String) (req : CreateRequest)
    (model : String) (queries : List String) (sources : List Source) (body : String)
    (mongo : MongoState) (minio : MinioState) (i : String) (d : Document)
    (hmem : (i, d) ∈
      (createAfterDraft env userID req model queries sources body mongo minio).mongo.docs)
    (hnew : (i, d) ∉ mongo.docs) :
    (d.pdfObjectKey = "" ∨ d.pdfObjectKey ∈
      ((createAfterDraft env userID req model queries sources body mongo minio).minio.objects.map
        Prod.fst)) ∧
    (d.texObjectKey = "" ∨ d.texObjectKey ∈
      ((createAfterDraft env userID req model queries sources body mongo minio).minio.objects.map
        Prod.fst)) := by
  simp only [createAfterDraft] at hmem ⊢
  split at hmem
  · exact absurd hmem hnew
  case _ docID heq =>
    rcases List.mem_cons.mp hmem with h | h
    · rw [Prod.mk.injEq] at h
      obtain ⟨-, rfl⟩ := h
      constructor
      · rcases pdfUploadStep_key env (pdfKeyOf userID req.topic)
            (pdfStageOf env body req.topic).1 minio with h0 | ⟨h1, h2⟩
        · exact Or.inl h0
        · refine Or.inr ?_
          show (pdfUploadStep env (pdfKeyOf userID req.topic)
              (pdfStageOf env body req.topic).1 minio).1 ∈ _
          rw [h1]
          exact texUploadStep_preserves _ _ _ _ _ h2
      · rcases texUploadStep_key env (texKeyOf userID req.topic)
            (texStageOf env body req.topic).1
            (pdfUploadStep env (pdfKeyOf userID req.topic)
              (pdfStageOf env body req.topic).1 minio).2.1 with h0 | ⟨h1, h2⟩
        · exact Or.inl h0
        · refine Or.inr ?_
          show (texUploadStep env (texKeyOf userID req.topic)
              (texStageOf env body req.topic).1
              (pdfUploadStep env (pdfKeyOf userID req.topic)
                (pdfStageOf env body req.topic).1 minio).2.1).1 ∈ _
          rw [h1]
          exact h2
    · exact absurd h hnew

theorem truncQueries_eq_take (mq : Nat) (l : List String) :
    truncQueries mq l = l.take mq := by
  unfold truncQueries
  split
  · rfl
  · next hlen => rw [List.take_of_length_le (Nat.le_of_not_lt hlen)]

/-! ### C1 — no dangling artifact reference is ever persisted -/

/-- C1: every document persisted by a pipeline run has each artifact
key either empty or naming an object present in the artifact store
after the run — a failed compile or failed upload always leaves the
corresponding key empty, never a dangling reference. -/
theorem create_no_dangling_reference (env : Env) (userID : String) (req : CreateRequest)
    (mongo : MongoState) (minio : MinioState) (i : String) (d : Document)
    (hmem : (i, d) ∈ (create env userID req mongo minio).mongo.docs)
    (hnew : (i, d) ∉ mongo.docs) :
    (d.pdfObjectKey = "" ∨ d.pdfObjectKey ∈
      ((create env userID req mongo minio).minio.objects.map Prod.fst)) ∧
    (d.texObjectKey = "" ∨ d.texObjectKey ∈
      ((create env userID req mongo minio).minio.objects.map Prod.fst)) := by
  by_cases hv : req.topic = "" ∨ req.apiKey = ""
  · simp only [create, if_pos hv] at hmem
    exact absurd hmem hnew
  · push_neg at hv
    obtain ⟨ht, hk⟩ := hv
    cases hq : env.genQueries req.apiKey (effectiveModel req.model) req.topic with
    | error e =>
      simp [create, ht, hk, hq] at hmem
      exact absurd hmem hnew
    | ok qs =>
      cases hs : env.search (truncQueries (depthParams req.depth).1 qs)
          (depthParams req.depth).2 with
      | error e =>
        simp [create, ht, hk, hq, hs] at hmem
        exact absurd hmem hnew
      | ok sources =>
        cases hr : env.genReport req.apiKey (effectiveModel req.model) req.topic
            (buildContext sources) sources with
        | error e =>
          simp [create, ht, hk, hq, hs, hr] at hmem
          exact absurd hmem hnew
        | ok body =>
          by_cases hb : body = ""
          · simp [create, ht, hk, hq, hs, hr, hb] at hmem
            exact absurd hmem hnew
          · rw [create_reaches_draft env userID req mongo minio qs sources body
              ht hk hq hs hr hb] at hmem ⊢
            exact createAfterDraft_no_dangling env userID req (effectiveModel req.model)
              (truncQueries (depthParams req.depth).1 qs) sources body mongo minio i d
              hmem hnew

theorem create_no_dangling_reference_witness :
    ((⟨"doc1", "u1", "topic", "BODY", [⟨"T1", "B1", "H1"⟩, ⟨"T2", "B2", "H2"⟩],
        "mistral-medium-latest", ["q1", "q2", "q3", "q4"], "u1/topic.pdf",
        "u1/topic.tex"⟩ : Document).pdfObjectKey = "" ∨
      (⟨"doc1", "u1", "topic", "BODY", [⟨"T1", "B1", "H1"⟩, ⟨"T2", "B2", "H2"⟩],
        "mistral-medium-latest", ["q1", "q2", "q3", "q4"], "u1/topic.pdf",
        "u1/topic.tex"⟩ : Document).pdfObjectKey ∈
        ((create envW "u1" ⟨"topic", "", "Standard", "key"⟩ ⟨[]⟩ ⟨[]⟩).minio.objects.map
          Prod.fst)) ∧
    ((⟨"doc1", "u1", "topic", "BODY", [⟨"T1", "B1", "H1"⟩, ⟨"T2", "B2", "H2"⟩],
        "mistral-medium-latest", ["q1", "q2", "q3", "q4"], "u1/topic.pdf",
        "u1/topic.tex"⟩ : Document).texObjectKey = "" ∨
      (⟨"doc1", "u1", "topic", "BODY", [⟨"T1", "B1", "H1"⟩, ⟨"T2", "B2", "H2"⟩],
        "mistral-medium-latest", ["q1", "q2", "q3", "q4"], "u1/topic.pdf",
        "u1/topic.tex"⟩ : Document).texObjectKey ∈
        ((create envW "u1" ⟨"topic", "", "Standard", "key"⟩ ⟨[]⟩ ⟨[]⟩).minio.objects.map
          Prod.fst)) :=
  create_no_dangling_reference envW "u1" ⟨"topic", "", "Standard", "key"⟩ ⟨[]⟩ ⟨[]⟩
    "doc1"
    ⟨"doc1", "u1", "topic", "BODY", [⟨"T1", "B1", "H1"⟩, ⟨"T2", "B2", "H2"⟩],
      "mistral-medium-latest", ["q1", "q2", "q3", "q4"], "u1/topic.pdf", "u1/topic.tex"⟩
    (by decide) (by decide)

/-! ### C3 — PDF compile failure is non-fatal -/

/-- C3: when drafting succeeds with a non-empty body but PDF
compilation fails, the run still completes — the composed record is
persisted with an empty `pdf_artifact_key`, the status is 201Created,
and the returned document carries the populated body. -/
theorem create_pdf_failure_still_completes (env : Env) (userID : String)
    (req : CreateRequest) (mongo : MongoState) (minio : MinioState) (qs : List String)
    (sources : List Source) (body e docID : String)
    (ht : req.topic ≠ "") (hk : req.apiKey ≠ "")
    (hq : env.genQueries req.apiKey (effectiveModel req.model) req.topic = .ok qs)
    (hs : env.search (truncQueries (depthParams req.depth).1 qs)
      (depthParams req.depth).2 = .ok sources)
    (hr : env.genReport req.apiKey (effectiveModel req.model) req.topic
      (buildContext sources) sources = .ok body)
    (hb : body ≠ "")
    (hpdf : env.compilePDF body req.topic = .error e)
    (hins : ∀ dd, env.insertRes dd = .ok docID) :
    (create env userID req mongo minio).status = 201 ∧
    ∃ dd, (create env userID req mongo minio).respDoc = some dd ∧
      mongoGetByID (create env userID req mongo minio).mongo docID = some dd ∧
      dd.pdfObjectKey = "" ∧ dd.latexContent = body ∧ dd.latexContent ≠ "" := by
  rw [create_reaches_draft env userID req mongo minio qs sources body ht hk hq hs hr hb]
  obtain ⟨h1, h2, h3⟩ := createAfterDraft_insert_ok env userID req (effectiveModel req.model)
    (truncQueries (depthParams req.depth).1 qs) sources body mongo minio docID hins
  have hpk : (pdfUploadStep env (pdfKeyOf userID req.topic)
      (pdfStageOf env body req.topic).1 minio).1 = "" := by
    rw [pdfStageOf_error env body req.topic e hpdf]
    rfl
  exact ⟨h1, _, h2, h3, hpk, rfl, hb⟩

/-- Environment in which PDF compilation fails, for witnesses. -/
def envPdfFail : Env := { envW with compilePDF := fun _ _ => .error "latexfail" }

theorem create_pdf_failure_still_completes_witness :
    (create envPdfFail "u1" ⟨"topic", "", "Standard", "key"⟩ ⟨[]⟩ ⟨[]⟩).status = 201 ∧
    ∃ dd, (create envPdfFail "u1" ⟨"topic", "", "Standard", "key"⟩ ⟨[]⟩ ⟨[]⟩).respDoc =
        some dd ∧
      mongoGetByID (create envPdfFail "u1" ⟨"topic", "", "Standard", "key"⟩ ⟨[]⟩ ⟨[]⟩).mongo
        "doc1" = some dd ∧
      dd.pdfObjectKey = "" ∧ dd.latexContent = "BODY" ∧ dd.latexContent ≠ "" :=
  create_pdf_failure_still_completes envPdfFail "u1" ⟨"topic", "", "Standard", "key"⟩
    ⟨[]⟩ ⟨[]⟩ ["q1", "q2", "q3", "q4", "q5"] [⟨"T1", "B1", "H1"⟩, ⟨"T2", "B2", "H2"⟩]
    "BODY" "latexfail" "doc1" (by decide) (by decide) rfl rfl rfl (by decide) rfl
    (fun _ => rfl)

/-! ### C10 — queries truncated to the first N, persisted verbatim -/

/-- C10: the pipeline keeps exactly the first `query_count` planned
queries in returned order (`truncQueries` is `List.take`, the identity
when the plan is shorter), and the persisted record's `search_queries`
equals that truncated sequence, of length `min query_count planned`. -/
theorem create_truncates_in_order (env : Env) (userID : String) (req : CreateRequest)
    (mongo : MongoState) (minio : MinioState) (qs : List String) (sources : List Source)
    (body docID : String)
    (ht : req.topic ≠ "") (hk : req.apiKey ≠ "")
    (hq : env.genQueries req.apiKey (effectiveModel req.model) req.topic = .ok qs)
    (hs : env.search (truncQueries (depthParams req.depth).1 qs)
      (depthParams req.depth).2 = .ok sources)
    (hr : env.genReport req.apiKey (effectiveModel req.model) req.topic
      (buildContext sources) sources = .ok body)
    (hb : body ≠ "")
    (hins : ∀ dd, env.insertRes dd = .ok docID) :
    ∃ dd, mongoGetByID (create env userID req mongo minio).mongo docID = some dd ∧
      dd.searchQueries = truncQueries (depthParams req.depth).1 qs ∧
      dd.searchQueries = qs.take (depthParams req.depth).1 ∧
      dd.searchQueries.length = min (depthParams req.depth).1 qs.length := by
  rw [create_reaches_draft env userID req mongo minio qs sources body ht hk hq hs hr hb]
  obtain ⟨-, -, h3⟩ := createAfterDraft_insert_ok env userID req (effectiveModel req.model)
    (truncQueries (depthParams req.depth).1 qs) sources body mongo minio docID hins
  refine ⟨_, h3, rfl, ?_, ?_⟩
  · exact truncQueries_eq_take _ _
  · show (truncQueries (depthParams req.depth).1 qs).length = _
    rw [truncQueries_eq_take]
    exact List.length_take _ _

theorem create_truncates_in_order_witness :
    ∃ dd, mongoGetByID
        (create envW "u1" ⟨"Impact of LLMs", "", "Quick", "key"⟩ ⟨[]⟩ ⟨[]⟩).mongo
        "doc1" = some dd ∧
      dd.searchQueries = truncQueries (depthParams "Quick").1
        ["q1", "q2", "q3", "q4", "q5"] ∧
      dd.searchQueries = ["q1", "q2", "q3", "q4", "q5"].take (depthParams "Quick").1 ∧
      dd.searchQueries.length = min (depthParams "Quick").1
        (["q1", "q2", "q3", "q4", "q5"] : List String).length :=
  create_truncates_in_order envW "u1" ⟨"Impact of LLMs", "", "Quick", "key"⟩ ⟨[]⟩ ⟨[]⟩
    ["q1", "q2", "q3", "q4", "q5"] [⟨"T1", "B1", "H1"⟩, ⟨"T2", "B2", "H2"⟩] "BODY" "doc1"
    (by decide) (by decide) rfl rfl rfl (by decide) (fun _ => rfl)

/-! ### C8 — best-effort deletion; removal failure is silent, not logged -/

/-- A stored document with both artifact keys set, for the deletion
scenarios. -/
def docD : Document :=
  ⟨"d1", "u1", "t", "body", [], "m", [], "u1/t.pdf", "u1/t.tex"⟩

/-- Result store holding `docD`, for the deletion scenarios. -/
def mongoD : MongoState := ⟨[("d1", docD)]⟩

/-- Artifact store holding both of `docD`'s objects, for the deletion
scenarios. -/
def minioD : MinioState :=
  ⟨[("u1/t.pdf", ⟨.bin [1], "application/pdf"⟩),
    ("u1/t.tex", ⟨.txt "x", "application/x-tex"⟩)]⟩

/-- C8 counterexample: deleting `d1` while every artifact removal
fails (the store call errors, the state stays unchanged) still removes
the record and answers 200 — but the log trace of the handler is
empty: the removal failure is NOT logged, contradicting the claim's
"such a failure must be logged" (the handler discards the store's
error without logging). -/
theorem delete_removal_failure_unlogged :
    docD.pdfObjectKey ≠ "" ∧
    (minioRemove minioD (fun _ => true) docD.pdfObjectKey).2.isSome ∧
    (handlerDelete "u1" mongoD minioD (fun _ => true) false "d1").status = 200 ∧
    mongoGetByID (handlerDelete "u1" mongoD minioD (fun _ => true) false "d1").mongo "d1" =
      none ∧
    (handlerDelete "u1" mongoD minioD (fun _ => true) false "d1").minio = minioD ∧
    (handlerDelete "u1" mongoD minioD (fun _ => true) false "d1").logs = [] := by
  decide

/-- C8 (amended): for every delete of an existing record, removal from
the artifact store is attempted for each non-empty key before the
record is deleted; a removal failure does not block record deletion —
the record is removed and the call answers 200 — but the failure is
silently discarded: the handler emits no log entry. -/
theorem delete_best_effort (subject : String) (mongo : MongoState) (minio : MinioState)
    (removeFails : String → Bool) (id : String) (doc : Document)
    (hdoc : mongoGetByID mongo id = some doc) :
    (handlerDelete subject mongo minio removeFails false id).status = 200 ∧
    mongoGetByID (handlerDelete subject mongo minio removeFails false id).mongo id = none ∧
    (handlerDelete subject mongo minio removeFails false id).logs = [] ∧
    (doc.pdfObjectKey ≠ "" → removeFails doc.pdfObjectKey = false →
      minioDownload (handlerDelete subject mongo minio removeFails false id).minio
        doc.pdfObjectKey = none) ∧
    (doc.texObjectKey ≠ "" → removeFails doc.texObjectKey = false →
      minioDownload (handlerDelete subject mongo minio removeFails false id).minio
        doc.texObjectKey = none) := by
  refine ⟨?_, ?_, ?_, ?_, ?_⟩
  · simp [handlerDelete, hdoc]
  · simp only [handlerDelete, hdoc]
    exact lookup_filter_self _ _
  · simp [handlerDelete, hdoc]
  · intro hk hrf
    simp only [handlerDelete, hdoc, minioDownload, minioRemove, hk, hrf, ne_eq,
      not_false_iff, if_true, Bool.false_eq_true, if_false]
    by_cases htk : doc.texObjectKey = ""
    · simp [htk, lookup_filter_self]
    · by_cases hrt : removeFails doc.texObjectKey
      · simp [htk, hrt, lookup_filter_self]
      · simp only [htk, hrt, ne_eq, not_false_iff, if_true, Bool.false_eq_true, if_false]
        exact lookup_none_filter _ _ _ (lookup_filter_self _ _)
  · intro hk hrf
    simp only [handlerDelete, hdoc, minioDownload, minioRemove, hk, hrf, ne_eq,
      not_false_iff, if_true, Bool.false_eq_true, if_false]
    simp [lookup_filter_self]

theorem delete_best_effort_witness :
    (handlerDelete "u1" mongoD minioD (fun _ => false) false "d1").status = 200 ∧
    mongoGetByID (handlerDelete "u1" mongoD minioD (fun _ => false) false "d1").mongo "d1" =
      none ∧
    (handlerDelete "u1" mongoD minioD (fun _ => false) false "d1").logs = [] ∧
    (docD.pdfObjectKey ≠ "" → (fun _ => false : String → Bool) docD.pdfObjectKey = false →
      minioDownload (handlerDelete "u1" mongoD minioD (fun _ => false) false "d1").minio
        docD.pdfObjectKey = none) ∧
    (docD.texObjectKey ≠ "" → (fun _ => false : String → Bool) docD.texObjectKey = false →
      minioDownload (handlerDelete "u1" mongoD minioD (fun _ => false) false "d1").minio
        docD.texObjectKey = none) :=
  delete_best_effort "u1" mongoD minioD (fun _ => false) "d1" docD (by decide)

end ResearchAgent
